import Mathlib

/-!
Verification of the rule-based threat-analysis core of the Ayraq_Dig
repository (`backend/app/routes/threats.py`).

The Python function `analyze_threat_content` lower-cases the content,
counts non-overlapping matches of each category's patterns (regexes of
the shape `\b(w1|w2|...)\b` over literal words), scores each category as
(match count) * 0.3 summed over its patterns, selects the first category
whose score strictly exceeds the running maximum, classifies severity by
fixed thresholds, generates recommendations, and clamps the confidence
to 1.0.  The route `analyze_threat` then emits a notification exactly
when a threat is detected at high or critical level.

Scores are embedded as rationals; the regex fragment used by the source
(word-boundary-delimited alternations of literal words, matched
non-overlapping left to right, alternatives tried in order) is embedded
directly as an executable scanner over lists of characters.
-/

attribute [local semireducible] Rat.add Rat.mul Rat.inv Rat.sub

/-- Word characters for the regex `\b` word boundary: `[a-zA-Z0-9_]`. -/
def isWordChar (c : Char) : Bool := c.isAlphanum || c = '_'

/-- Whether position `i` of `s` holds a word character (out of range counts as non-word). -/
def wordAt (s : List Char) (i : Nat) : Bool :=
  match s.get? i with
  | some c => isWordChar c
  | none => false

/-- Word boundary `\b` at position `i` (between characters `i-1` and `i`). -/
def boundaryAt (s : List Char) (i : Nat) : Bool :=
  match i with
  | 0 => wordAt s 0
  | j + 1 => wordAt s j != wordAt s (j + 1)

/-- Does the alternative `a` occur literally at the start of the text suffix `t`? -/
def matchesFrom : List Char → List Char → Bool
  | _, [] => true
  | [], _ :: _ => false
  | c :: cs, a :: as => c == a && matchesFrom cs as

/-- First alternative (in regex order) that matches at position `i` of `s` with a
closing word boundary; returns the length of the matched alternative. -/
def altAt (s : List Char) (i : Nat) : List (List Char) → Option Nat
  | [] => none
  | a :: rest =>
    if matchesFrom (s.drop i) a && boundaryAt s (i + a.length) then some a.length
    else altAt s i rest

/-- Left-to-right, non-overlapping scan counting matches of
`\b(a1|a2|...)\b`, as `re.findall` does: at each position with an opening
word boundary try the alternatives in order; on a match continue after it. -/
def scanCount (s : List Char) (alts : List (List Char)) : Nat → Nat → Nat
  | 0, _ => 0
  | fuel + 1, i =>
    if i < s.length then
      if boundaryAt s i then
        match altAt s i alts with
        | some len => scanCount s alts fuel (i + len) + 1
        | none => scanCount s alts fuel (i + 1)
      else scanCount s alts fuel (i + 1)
    else 0

/-- Number of non-overlapping matches of the pattern `\b(a1|a2|...)\b` in `content`,
the embedding of `len(re.findall(pattern, content_lower))`. -/
def countMatches (alts : List String) (content : List Char) : Nat :=
  scanCount content (alts.map String.toList) (content.length + 1) 0

/-- The two `cyberbullying` patterns of `threat_patterns`. -/
def cyberbullying_patterns : List (List String) :=
  [["stupid", "idiot", "loser", "ugly", "fat", "worthless", "kill yourself", "die"],
   ["hate you", "disgusting", "pathetic", "freak"]]

/-- The two `harassment` patterns of `threat_patterns`. -/
def harassment_patterns : List (List String) :=
  [["follow you", "watching you", "know where you live", "find you"],
   ["won\x27t leave you alone", "obsessed", "stalking"]]

/-- The two `inappropriate_content` patterns of `threat_patterns`. -/
def inappropriate_content_patterns : List (List String) :=
  [["send nudes", "naked", "sexy pics", "inappropriate"],
   ["sexual", "explicit", "adult content"]]

/-- The two `phishing` patterns of `threat_patterns`. -/
def phishing_patterns : List (List String) :=
  [["click here", "urgent", "verify account", "suspended"],
   ["winner", "congratulations", "claim prize", "free money"]]

/-- The `threat_patterns` dict of `analyze_threat_content`, in its insertion
(= iteration) order. -/
def threat_patterns : List (String × List (List String)) :=
  [("cyberbullying", cyberbullying_patterns),
   ("harassment", harassment_patterns),
   ("inappropriate_content", inappropriate_content_patterns),
   ("phishing", phishing_patterns)]

/-- Raw score of one category: each pattern contributes (match count) * 0.3,
summed over the category's patterns (`threat_score` in the source). -/
def threatScoreOf (patterns : List (List String)) (content_lower : List Char) : ℚ :=
  patterns.foldl (fun acc pat => acc + (countMatches pat content_lower : ℚ) * (3 / 10)) 0

/-- The severity-threshold ladder applied to `max_confidence` in the source. -/
def threatLevelOf (max_confidence : ℚ) : String :=
  if 8 / 10 ≤ max_confidence then "critical"
  else if 6 / 10 ≤ max_confidence then "high"
  else if 3 / 10 ≤ max_confidence then "medium"
  else "low"

/-- The detection flag `max_confidence > 0.2` of the source. -/
def threatDetectedOf (max_confidence : ℚ) : Bool :=
  decide (2 / 10 < max_confidence)

/-- The recommendation generator of the source: base recommendations when
`max_confidence > 0.5`, with two extra ones appended at high/critical level. -/
def recommendationsFor (max_confidence : ℚ) (threat_level : String) : List String :=
  if 5 / 10 < max_confidence then
    ["Document this content as evidence",
     "Report to platform administrators",
     "Consider blocking the sender"] ++
    (if threat_level = "high" ∨ threat_level = "critical" then
      ["Contact emergency services if feeling unsafe",
       "Inform trusted contacts about the situation"]
     else [])
  else []

/-- One iteration of the detection loop; the accumulator is
`(detected_threats, max_confidence, primary_threat)`. -/
def detectStep (content_lower : List Char) (acc : List String × ℚ × String)
    (entry : String × List (List String)) : List String × ℚ × String :=
  let threat_score := threatScoreOf entry.2 content_lower
  if 0 < threat_score then
    (acc.1 ++ [entry.1],
     if acc.2.1 < threat_score then (threat_score, entry.1) else acc.2)
  else acc

/-- The result record returned by `analyze_threat_content`. -/
structure ThreatAnalysisResult where
  threat_detected : Bool
  threat_type : String
  threat_level : String
  confidence_score : ℚ
  explanation : String
  recommended_actions : List String
deriving DecidableEq

/-- The embedding of `analyze_threat_content`. -/
def analyze_threat_content (content : String) : ThreatAnalysisResult :=
  let content_lower := content.toList.map Char.toLower
  let st := threat_patterns.foldl (detectStep content_lower) ([], 0, "other")
  { threat_detected := threatDetectedOf st.2.1
    threat_type := st.2.2
    threat_level := threatLevelOf st.2.1
    confidence_score := min st.2.1 1
    explanation := "Detected potential " ++ st.2.2 ++ " with " ++ threatLevelOf st.2.1 ++
      " severity level"
    recommended_actions := recommendationsFor st.2.1 (threatLevelOf st.2.1) }

/-- The notification record built by the `analyze_threat` route for
high-priority threats. -/
structure EscalationEvent where
  user_id : String
  notification_type : String
  title : String
  message : String
  priority : String
  threat_id : String
deriving DecidableEq

/-- The escalation decision of the `analyze_threat` route: given the analysis
result and the stored detection's identifier, a notification is inserted iff
the threat is detected and the level is high or critical. -/
def escalationEvent (analysis_result : ThreatAnalysisResult) (user_id threat_id : String) :
    Option EscalationEvent :=
  if analysis_result.threat_detected = true ∧
      (analysis_result.threat_level = "high" ∨ analysis_result.threat_level = "critical") then
    some { user_id := user_id
           notification_type := "threat_alert"
           title := analysis_result.threat_level.capitalize ++ " Threat Detected"
           message := "We detected a " ++ analysis_result.threat_level ++ " level " ++
             analysis_result.threat_type ++ " threat"
           priority := if analysis_result.threat_level = "critical" then "urgent" else "high"
           threat_id := threat_id }
  else none

/-- The list of per-category raw scores, in the source's iteration order. -/
def categoryScores (content : String) : List (String × ℚ) :=
  threat_patterns.map fun e => (e.1, threatScoreOf e.2 (content.toList.map Char.toLower))

/-- The greatest raw score over all categories (0 when nothing matches). -/
def maxRawScore (content : String) : ℚ :=
  (categoryScores content).foldl (fun m x => max m x.2) 0

/-- The selection loop of `analyze_threat_content`, rephrased over the list of
precomputed `(category, raw score)` pairs. -/
def selAux : List (String × ℚ) → List String × ℚ × String → List String × ℚ × String
  | [], acc => acc
  | (cat, s) :: rest, acc =>
    selAux rest (if 0 < s then (acc.1 ++ [cat], if acc.2.1 < s then (s, cat) else acc.2) else acc)

/-- A nonnegative IEEE-754 binary64 value (a Python `float` as produced by the
source's score arithmetic): the exact value `m * 2^e`.  Values produced by the
operations below always carry a mantissa `m < 2^53`; the source's computations
stay far inside the normal range, so overflow, underflow, subnormals, negative
zero and NaN never arise and are not modelled. -/
structure Fp64 where
  m : Nat
  e : Int

/-- The exact rational value of a binary64 datum (every finite double is a
dyadic rational, and Python compares floats by exact value). -/
def Fp64.toRat (x : Fp64) : ℚ :=
  if 0 ≤ x.e then ((x.m * 2 ^ x.e.toNat : ℕ) : ℚ) else (x.m : ℚ) / ((2 ^ (-x.e).toNat : ℕ) : ℚ)

/-- How many low bits of `M` exceed the 53-bit significand (the number of
halvings until `M < 2^53`); the first argument is fuel, always sufficient when
called with `M` itself. -/
def excessBits : Nat → Nat → Nat
  | 0, _ => 0
  | fuel + 1, M => if M < 2 ^ 53 then 0 else excessBits fuel (M / 2) + 1

/-- Round an integer significand to 53 bits, to nearest with ties to even:
drop `shift` low bits, rounding up when the dropped part exceeds half an ulp or
equals half an ulp with an odd kept part. -/
def roundMantissa (M : Nat) (shift : Nat) : Nat :=
  let q := M / 2 ^ shift
  let r := M % 2 ^ shift
  let half := 2 ^ (shift - 1)
  if half < r ∨ (r = half ∧ q % 2 = 1) then q + 1 else q

/-- Round the exact value `M * 2^e` (`M : ℕ`) to the nearest binary64 value,
ties to even: keep `M` when it already fits in 53 bits, otherwise round the
significand and renormalize a mantissa overflow. -/
def roundFp64 (M : Nat) (e : Int) : Fp64 :=
  if M < 2 ^ 53 then ⟨M, e⟩
  else
    let shift := excessBits M M
    let q := roundMantissa M shift
    if q < 2 ^ 53 then ⟨q, e + shift⟩ else ⟨q / 2, e + shift + 1⟩

/-- IEEE-754 binary64 addition of nonnegative values: the exact sum, rounded. -/
def Fp64.add (x y : Fp64) : Fp64 :=
  let e := min x.e y.e
  roundFp64 (x.m * 2 ^ (x.e - e).toNat + y.m * 2 ^ (y.e - e).toNat) e

/-- Python `n * x` for an `int` and a `float`: the integer converts to binary64
exactly (all counts here are far below 2^53), then the exact product is
rounded. -/
def Fp64.mulNat (n : Nat) (x : Fp64) : Fp64 := roundFp64 (n * x.m) x.e

/-- The binary64 value of the literal `0.3` of the source:
`5404319552844595 * 2^-54` (certified nearest below). -/
def float0_3 : Fp64 := ⟨5404319552844595, -54⟩

/-- The binary64 value of the literal `0.2` of the source:
`7205759403792794 * 2^-55` (certified nearest below). -/
def float0_2 : Fp64 := ⟨7205759403792794, -55⟩

/-- The binary64 value of the literal `0.5` of the source (exact). -/
def float0_5 : Fp64 := ⟨4503599627370496, -53⟩

/-- The binary64 value of the literal `0.6` of the source:
`5404319552844595 * 2^-53` (certified nearest below). -/
def float0_6 : Fp64 := ⟨5404319552844595, -53⟩

/-- The binary64 value of the literal `0.8` of the source:
`7205759403792794 * 2^-53` (certified nearest below). -/
def float0_8 : Fp64 := ⟨7205759403792794, -53⟩

/-- The raw score of one category in the source's actual (Python float)
arithmetic: `threat_score = 0`, then `threat_score += matches * 0.3` per
pattern, every step in binary64. -/
def threatScoreFpOf (patterns : List (List String)) (content_lower : List Char) : Fp64 :=
  patterns.foldl (fun acc pat => acc.add (Fp64.mulNat (countMatches pat content_lower) float0_3))
    ⟨0, 0⟩

/-- The severity ladder in float semantics: `max_confidence` is compared
against the binary64 values of the literals 0.8, 0.6, 0.3. -/
def threatLevelFpOf (max_confidence : ℚ) : String :=
  if float0_8.toRat ≤ max_confidence then "critical"
  else if float0_6.toRat ≤ max_confidence then "high"
  else if float0_3.toRat ≤ max_confidence then "medium"
  else "low"

/-- The detection flag `max_confidence > 0.2` in float semantics. -/
def threatDetectedFpOf (max_confidence : ℚ) : Bool :=
  decide (float0_2.toRat < max_confidence)

/-- The recommendation generator in float semantics (`max_confidence > 0.5`;
the binary64 value of 0.5 is exact). -/
def recommendationsFpFor (max_confidence : ℚ) (threat_level : String) : List String :=
  if float0_5.toRat < max_confidence then
    ["Document this content as evidence",
     "Report to platform administrators",
     "Consider blocking the sender"] ++
    (if threat_level = "high" ∨ threat_level = "critical" then
      ["Contact emergency services if feeling unsafe",
       "Inform trusted contacts about the situation"]
     else [])
  else []

/-- One iteration of the detection loop in float semantics: the category score
is the binary64 accumulation, and the comparisons `> 0` and
`> max_confidence` compare the doubles by exact value, as Python does. -/
def detectStepFp (content_lower : List Char) (acc : List String × ℚ × String)
    (entry : String × List (List String)) : List String × ℚ × String :=
  let threat_score := (threatScoreFpOf entry.2 content_lower).toRat
  if 0 < threat_score then
    (acc.1 ++ [entry.1],
     if acc.2.1 < threat_score then (threat_score, entry.1) else acc.2)
  else acc

/-- The embedding of `analyze_threat_content` with the source's IEEE-754
binary64 score arithmetic (scores carried as the exact rational values of the
doubles involved). -/
def analyze_threat_content_fp (content : String) : ThreatAnalysisResult :=
  let content_lower := content.toList.map Char.toLower
  let st := threat_patterns.foldl (detectStepFp content_lower) ([], 0, "other")
  { threat_detected := threatDetectedFpOf st.2.1
    threat_type := st.2.2
    threat_level := threatLevelFpOf st.2.1
    confidence_score := min st.2.1 1
    explanation := "Detected potential " ++ st.2.2 ++ " with " ++ threatLevelFpOf st.2.1 ++
      " severity level"
    recommended_actions := recommendationsFpFor st.2.1 (threatLevelFpOf st.2.1) }

/-- The per-category raw scores under float accumulation (as exact values of
the computed doubles), in the source's iteration order. -/
def categoryScoresFp (content : String) : List (String × ℚ) :=
  threat_patterns.map fun e =>
    (e.1, (threatScoreFpOf e.2 (content.toList.map Char.toLower)).toRat)

/-- The greatest float-accumulated raw score over all categories. -/
def maxRawScoreFp (content : String) : ℚ :=
  (categoryScoresFp content).foldl (fun m x => max m x.2) 0

/-- A content string on which cyberbullying and harassment both have six
pattern matches (exact raw score 1.8 each), but whose float accumulations
differ: 6*0.3 = 1.7999999999999998 against 5*0.3 + 1*0.3 = 1.8. -/
def tieContent : String :=
  "stupid stupid stupid stupid stupid stupid follow you follow you follow you " ++
    "follow you follow you obsessed"

lemma foldl_detect_eq (cl : List Char) (l : List (String × List (List String))) :
    ∀ acc : List String × ℚ × String,
      l.foldl (detectStep cl) acc = selAux (l.map fun e => (e.1, threatScoreOf e.2 cl)) acc := by
  induction l with
  | nil => intro acc; rfl
  | cons e rest ih =>
    intro acc
    show rest.foldl (detectStep cl) (detectStep cl acc e) = _
    exact ih (detectStep cl acc e)

lemma selAux_max (l : List (String × ℚ)) :
    ∀ acc : List String × ℚ × String, 0 ≤ acc.2.1 →
      (selAux l acc).2.1 = l.foldl (fun m x => max m x.2) acc.2.1 := by
  induction l with
  | nil => intro acc _; rfl
  | cons x rest ih =>
    rcases x with ⟨cat, s⟩
    intro acc h
    simp only [selAux, List.foldl_cons]
    split_ifs with hs hm
    · rw [ih (acc.1 ++ [cat], s, cat) (le_of_lt hs)]
      congr 1
      exact (max_eq_right (le_of_lt hm)).symm
    · rw [ih (acc.1 ++ [cat], acc.2) h]
      congr 1
      exact (max_eq_left (not_lt.mp hm)).symm
    · rw [ih acc h]
      congr 1
      exact (max_eq_left (le_trans (not_lt.mp hs) h)).symm

lemma selAux_spec (l : List (String × ℚ)) :
    ∀ (det : List String) (m : ℚ) (p : String), 0 ≤ m →
      ((selAux l (det, m, p)).2.1 = m ∧ (selAux l (det, m, p)).2.2 = p ∧ ∀ x ∈ l, x.2 ≤ m) ∨
      (∃ pre x suf, l = pre ++ x :: suf ∧ x.2 = (selAux l (det, m, p)).2.1 ∧
        (selAux l (det, m, p)).2.2 = x.1 ∧ m < (selAux l (det, m, p)).2.1 ∧
        (∀ y ∈ pre, y.2 < (selAux l (det, m, p)).2.1) ∧
        (∀ y ∈ suf, y.2 ≤ (selAux l (det, m, p)).2.1)) := by
  induction l with
  | nil =>
    intro det m p _
    left
    refine ⟨rfl, rfl, ?_⟩
    intro x hx
    exact absurd hx (List.not_mem_nil x)
  | cons hd rest ih =>
    rcases hd with ⟨cat, s⟩
    intro det m p hm
    simp only [selAux]
    by_cases hs : 0 < s
    · by_cases hm' : m < s
      · rw [if_pos hs, if_pos hm']
        rcases ih (det ++ [cat]) s cat (le_of_lt hs) with ⟨h1, h2, h3⟩ |
          ⟨pre, x, suf, e1, e2, e3, e4, e5, e6⟩
        · right
          refine ⟨[], (cat, s), rest, rfl, h1.symm, h2, ?_, ?_, ?_⟩
          · rw [h1]; exact hm'
          · intro y hy; exact absurd hy (List.not_mem_nil y)
          · intro y hy; rw [h1]; exact h3 y hy
        · right
          refine ⟨(cat, s) :: pre, x, suf, by rw [e1]; rfl, e2, e3, lt_trans hm' e4, ?_, e6⟩
          intro y hy
          rcases List.mem_cons.mp hy with h | h
          · rw [h]; exact e4
          · exact e5 y h
      · rw [if_pos hs, if_neg hm']
        rcases ih (det ++ [cat]) m p hm with ⟨h1, h2, h3⟩ |
          ⟨pre, x, suf, e1, e2, e3, e4, e5, e6⟩
        · left
          refine ⟨h1, h2, ?_⟩
          intro x hx
          rcases List.mem_cons.mp hx with h | h
          · rw [h]; exact not_lt.mp hm'
          · exact h3 x h
        · right
          refine ⟨(cat, s) :: pre, x, suf, by rw [e1]; rfl, e2, e3, e4, ?_, e6⟩
          intro y hy
          rcases List.mem_cons.mp hy with h | h
          · rw [h]; exact lt_of_le_of_lt (not_lt.mp hm') e4
          · exact e5 y h
    · rw [if_neg hs]
      rcases ih det m p hm with ⟨h1, h2, h3⟩ | ⟨pre, x, suf, e1, e2, e3, e4, e5, e6⟩
      · left
        refine ⟨h1, h2, ?_⟩
        intro x hx
        rcases List.mem_cons.mp hx with h | h
        · rw [h]; exact le_trans (not_lt.mp hs) hm
        · exact h3 x h
      · right
        refine ⟨(cat, s) :: pre, x, suf, by rw [e1]; rfl, e2, e3, e4, ?_, e6⟩
        intro y hy
        rcases List.mem_cons.mp hy with h | h
        · rw [h]; exact lt_of_le_of_lt (le_trans (not_lt.mp hs) hm) e4
        · exact e5 y h

lemma foldl_score_nonneg (cl : List Char) (pats : List (List String)) :
    ∀ a : ℚ, 0 ≤ a →
      0 ≤ pats.foldl (fun acc pat => acc + (countMatches pat cl : ℚ) * (3 / 10)) a := by
  induction pats with
  | nil => intro a ha; exact ha
  | cons p rest ih =>
    intro a ha
    refine ih _ (add_nonneg ha (mul_nonneg (Nat.cast_nonneg _) (by norm_num)))

lemma threatScoreOf_nonneg (pats : List (List String)) (cl : List Char) :
    0 ≤ threatScoreOf pats cl :=
  foldl_score_nonneg cl pats 0 le_rfl

lemma le_foldl_max (l : List (String × ℚ)) :
    ∀ m : ℚ, m ≤ l.foldl (fun a x => max a x.2) m := by
  induction l with
  | nil => intro m; exact le_rfl
  | cons x rest ih =>
    intro m
    exact le_trans (le_max_left m x.2) (ih (max m x.2))

lemma maxRawScore_nonneg (content : String) : 0 ≤ maxRawScore content :=
  le_foldl_max (categoryScores content) 0

lemma foldl_sum_eq (cl : List Char) (pats : List (List String)) :
    ∀ a : ℚ,
      pats.foldl (fun acc pat => acc + (countMatches pat cl : ℚ) * (3 / 10)) a =
        a + (pats.map fun pat => (countMatches pat cl : ℚ) * (3 / 10)).sum := by
  induction pats with
  | nil => intro a; simp
  | cons p rest ih =>
    intro a
    simp only [List.foldl_cons, List.map_cons, List.sum_cons]
    rw [ih]
    ring

lemma threatScoreOf_eq_sum (pats : List (List String)) (cl : List Char) :
    threatScoreOf pats cl = (pats.map fun pat => (countMatches pat cl : ℚ) * (3 / 10)).sum := by
  have h := foldl_sum_eq cl pats 0
  rw [threatScoreOf, h, zero_add]

lemma st_eq (content : String) :
    threat_patterns.foldl (detectStep (content.toList.map Char.toLower)) ([], 0, "other") =
      selAux (categoryScores content) ([], 0, "other") :=
  foldl_detect_eq (content.toList.map Char.toLower) threat_patterns ([], 0, "other")

lemma st_max (content : String) :
    (threat_patterns.foldl (detectStep (content.toList.map Char.toLower))
        ([], (0 : ℚ), "other")).2.1 = maxRawScore content := by
  rw [st_eq]
  exact selAux_max (categoryScores content) ([], 0, "other") le_rfl

lemma analyze_confidence (content : String) :
    (analyze_threat_content content).confidence_score = min (maxRawScore content) 1 := by
  show min (threat_patterns.foldl (detectStep (content.toList.map Char.toLower))
    ([], (0 : ℚ), "other")).2.1 1 = _
  rw [st_max]

lemma analyze_level (content : String) :
    (analyze_threat_content content).threat_level = threatLevelOf (maxRawScore content) := by
  show threatLevelOf (threat_patterns.foldl (detectStep (content.toList.map Char.toLower))
    ([], (0 : ℚ), "other")).2.1 = _
  rw [st_max]

lemma analyze_detected (content : String) :
    (analyze_threat_content content).threat_detected = threatDetectedOf (maxRawScore content) := by
  show threatDetectedOf (threat_patterns.foldl (detectStep (content.toList.map Char.toLower))
    ([], (0 : ℚ), "other")).2.1 = _
  rw [st_max]

lemma analyze_rec_eq (content : String) :
    (analyze_threat_content content).recommended_actions =
      recommendationsFor (maxRawScore content) (threatLevelOf (maxRawScore content)) := by
  show recommendationsFor (threat_patterns.foldl (detectStep (content.toList.map Char.toLower))
      ([], (0 : ℚ), "other")).2.1
    (threatLevelOf (threat_patterns.foldl (detectStep (content.toList.map Char.toLower))
      ([], (0 : ℚ), "other")).2.1) = _
  rw [st_max]

lemma analyze_type_eq (content : String) :
    (analyze_threat_content content).threat_type =
      (selAux (categoryScores content) ([], 0, "other")).2.2 := by
  show (threat_patterns.foldl (detectStep (content.toList.map Char.toLower))
    ([], (0 : ℚ), "other")).2.2 = _
  rw [st_eq]

lemma threatLevel_critical_iff (q : ℚ) : threatLevelOf q = "critical" ↔ 8 / 10 ≤ q := by
  unfold threatLevelOf
  split_ifs with h1 h2 h3 <;> simp_all

lemma threatLevel_high_iff (q : ℚ) : threatLevelOf q = "high" ↔ 6 / 10 ≤ q ∧ q < 8 / 10 := by
  unfold threatLevelOf
  split_ifs with h1 h2 h3 <;> simp_all

lemma threatLevel_medium_iff (q : ℚ) : threatLevelOf q = "medium" ↔ 3 / 10 ≤ q ∧ q < 6 / 10 := by
  constructor
  · intro h
    unfold threatLevelOf at h
    split_ifs at h with h1 h2 h3
    · exact absurd h (by decide)
    · exact absurd h (by decide)
    · exact ⟨h3, lt_of_not_le h2⟩
    · exact absurd h (by decide)
  · rintro ⟨hl, hu⟩
    unfold threatLevelOf
    rw [if_neg (by linarith), if_neg (by linarith), if_pos hl]

lemma threatLevel_low_iff (q : ℚ) : threatLevelOf q = "low" ↔ q < 3 / 10 := by
  unfold threatLevelOf
  split_ifs with h1 h2 h3 <;> simp_all <;> linarith

lemma clamp_le_iff (M t : ℚ) (ht : t ≤ 1) : t ≤ min M 1 ↔ t ≤ M :=
  le_min_iff.trans (and_iff_left ht)

lemma clamp_lt_iff (M t : ℚ) (ht : t ≤ 1) : min M 1 < t ↔ M < t :=
  min_lt_iff.trans (or_iff_left (not_lt.mpr ht))

lemma lt_clamp_iff (M t : ℚ) (ht : t < 1) : t < min M 1 ↔ t < M :=
  lt_min_iff.trans (and_iff_left ht)

lemma threatDetectedOf_iff (q : ℚ) : threatDetectedOf q = true ↔ 2 / 10 < q := by
  unfold threatDetectedOf
  exact decide_eq_true_iff

lemma float0_3_nearest :
    2 ^ 52 ≤ float0_3.m ∧ float0_3.m < 2 ^ 53 ∧
    (3 : ℚ) / 10 - float0_3.toRat < 1 / ((2 ^ 55 : ℕ) : ℚ) ∧
    float0_3.toRat - 3 / 10 < 1 / ((2 ^ 55 : ℕ) : ℚ) := by
  decide

lemma float0_2_nearest :
    2 ^ 52 ≤ float0_2.m ∧ float0_2.m < 2 ^ 53 ∧
    (2 : ℚ) / 10 - float0_2.toRat < 1 / ((2 ^ 56 : ℕ) : ℚ) ∧
    float0_2.toRat - 2 / 10 < 1 / ((2 ^ 56 : ℕ) : ℚ) := by
  decide

lemma float0_5_exact : float0_5.toRat = 5 / 10 := by decide

lemma float0_6_nearest :
    2 ^ 52 ≤ float0_6.m ∧ float0_6.m < 2 ^ 53 ∧
    (6 : ℚ) / 10 - float0_6.toRat < 1 / ((2 ^ 54 : ℕ) : ℚ) ∧
    float0_6.toRat - 6 / 10 < 1 / ((2 ^ 54 : ℕ) : ℚ) := by
  decide

lemma float0_8_nearest :
    2 ^ 52 ≤ float0_8.m ∧ float0_8.m < 2 ^ 53 ∧
    (8 : ℚ) / 10 - float0_8.toRat < 1 / ((2 ^ 54 : ℕ) : ℚ) ∧
    float0_8.toRat - 8 / 10 < 1 / ((2 ^ 54 : ℕ) : ℚ) := by
  decide

lemma foldl_detect_fp_eq (cl : List Char) (l : List (String × List (List String))) :
    ∀ acc : List String × ℚ × String,
      l.foldl (detectStepFp cl) acc =
        selAux (l.map fun e => (e.1, (threatScoreFpOf e.2 cl).toRat)) acc := by
  induction l with
  | nil => intro acc; rfl
  | cons e rest ih =>
    intro acc
    show rest.foldl (detectStepFp cl) (detectStepFp cl acc e) = _
    exact ih (detectStepFp cl acc e)

lemma st_eq_fp (content : String) :
    threat_patterns.foldl (detectStepFp (content.toList.map Char.toLower)) ([], 0, "other") =
      selAux (categoryScoresFp content) ([], 0, "other") :=
  foldl_detect_fp_eq (content.toList.map Char.toLower) threat_patterns ([], 0, "other")

lemma st_max_fp (content : String) :
    (threat_patterns.foldl (detectStepFp (content.toList.map Char.toLower))
        ([], (0 : ℚ), "other")).2.1 = maxRawScoreFp content := by
  rw [st_eq_fp]
  exact selAux_max (categoryScoresFp content) ([], 0, "other") le_rfl

lemma analyze_confidence_fp (content : String) :
    (analyze_threat_content_fp content).confidence_score = min (maxRawScoreFp content) 1 := by
  show min (threat_patterns.foldl (detectStepFp (content.toList.map Char.toLower))
    ([], (0 : ℚ), "other")).2.1 1 = _
  rw [st_max_fp]

lemma analyze_type_fp (content : String) :
    (analyze_threat_content_fp content).threat_type =
      (selAux (categoryScoresFp content) ([], 0, "other")).2.2 := by
  show (threat_patterns.foldl (detectStepFp (content.toList.map Char.toLower))
    ([], (0 : ℚ), "other")).2.2 = _
  rw [st_eq_fp]

lemma escalation_isSome_iff (r : ThreatAnalysisResult) (uid tid : String) :
    (escalationEvent r uid tid).isSome = true ↔
      (r.threat_detected = true ∧ (r.threat_level = "high" ∨ r.threat_level = "critical")) := by
  unfold escalationEvent
  split_ifs with h h2
  · simpa using h
  · simpa using h
  · exact iff_of_false (fun hh => Bool.false_ne_true hh) h

/-- C1 counterexample: on `tieContent` both cyberbullying (the first category
in the enumeration order) and harassment have exact raw score 1.8 — an equal
nonzero maximum, with every other category at 0 — yet the source's binary64
accumulation computes 6*0.3 = 1.7999999999999998 for cyberbullying and
5*0.3 + 1*0.3 = 1.8 for harassment, so the program reports harassment, not the
first category of the tie. -/
theorem threat_scoring_tiebreak_counterexample :
    threatScoreOf cyberbullying_patterns (tieContent.toList.map Char.toLower) = 9 / 5
  ∧ threatScoreOf harassment_patterns (tieContent.toList.map Char.toLower) = 9 / 5
  ∧ threatScoreOf inappropriate_content_patterns (tieContent.toList.map Char.toLower) = 0
  ∧ threatScoreOf phishing_patterns (tieContent.toList.map Char.toLower) = 0
  ∧ (threatScoreFpOf cyberbullying_patterns (tieContent.toList.map Char.toLower)).toRat <
      (threatScoreFpOf harassment_patterns (tieContent.toList.map Char.toLower)).toRat
  ∧ (analyze_threat_content_fp tieContent).threat_type = "harassment" := by
  refine ⟨by decide, by decide, by decide, by decide, by decide, by decide⟩

/-- C1 as amended: each category's raw score is the source's IEEE-754 binary64
accumulation of (non-overlapping match count) times the double nearest 0.3;
`threat_type` is the category with the strictly greatest accumulated score,
equal accumulated scores resolving to the first category in the fixed
enumeration order cyberbullying, harassment, inappropriate_content, phishing
(exact-arithmetic ties are ordered by rounding first, as the counterexample
shows); when the maximum accumulated score is 0 the type is `other` and the
confidence is 0. -/
theorem threat_scoring_argmax_fp (content : String) :
    (categoryScoresFp content).map Prod.fst =
      ["cyberbullying", "harassment", "inappropriate_content", "phishing"]
  ∧ (maxRawScoreFp content = 0 →
      (analyze_threat_content_fp content).threat_type = "other" ∧
      (analyze_threat_content_fp content).confidence_score = 0)
  ∧ (0 < maxRawScoreFp content →
      ∃ pre x suf, categoryScoresFp content = pre ++ x :: suf ∧
        x.2 = maxRawScoreFp content ∧
        (analyze_threat_content_fp content).threat_type = x.1 ∧
        ∀ y ∈ pre, y.2 < maxRawScoreFp content) := by
  have hmax : (selAux (categoryScoresFp content) ([], 0, "other")).2.1 = maxRawScoreFp content :=
    selAux_max (categoryScoresFp content) ([], 0, "other") le_rfl
  have hty := analyze_type_fp content
  refine ⟨rfl, ?_, ?_⟩
  · intro h0
    rcases selAux_spec (categoryScoresFp content) [] 0 "other" le_rfl with ⟨_, h2, _⟩ |
      ⟨_, _, _, _, _, _, e4, _, _⟩
    · refine ⟨hty.trans h2, ?_⟩
      rw [analyze_confidence_fp, h0]
      exact min_eq_left (by norm_num)
    · rw [hmax, h0] at e4
      exact absurd e4 (lt_irrefl 0)
  · intro hpos
    rcases selAux_spec (categoryScoresFp content) [] 0 "other" le_rfl with ⟨h1, _, _⟩ |
      ⟨pre, x, suf, e1, e2, e3, _, e5, _⟩
    · rw [h1] at hmax
      rw [← hmax] at hpos
      exact absurd hpos (lt_irrefl 0)
    · refine ⟨pre, x, suf, e1, e2.trans hmax, hty.trans e3, ?_⟩
      intro y hy
      rw [← hmax]
      exact e5 y hy

/-- C1 witness: on the benign content "hello there" no pattern matches, the
maximum accumulated score is 0, and the float-semantics analysis reports type
`other` with confidence 0. -/
theorem threat_scoring_argmax_fp_witness :
    (analyze_threat_content_fp "hello there").threat_type = "other" ∧
    (analyze_threat_content_fp "hello there").confidence_score = 0 :=
  (threat_scoring_argmax_fp "hello there").2.1 (by decide)

/-- C2: severity and detection are exact threshold functions of the confidence
score: confidence ≥ 0.8 is critical, 0.6 ≤ confidence < 0.8 is high,
0.3 ≤ confidence < 0.6 is medium, confidence < 0.3 is low, and threat_detected
holds iff confidence > 0.2 (strict); at the boundaries, 0.3 is medium, 0.6 is
high, 0.8 is critical, 0.2 is not detected while 0.21 is. -/
theorem threat_level_thresholds (content : String) :
    ((analyze_threat_content content).threat_level = "critical" ↔
      8 / 10 ≤ (analyze_threat_content content).confidence_score)
  ∧ ((analyze_threat_content content).threat_level = "high" ↔
      6 / 10 ≤ (analyze_threat_content content).confidence_score ∧
      (analyze_threat_content content).confidence_score < 8 / 10)
  ∧ ((analyze_threat_content content).threat_level = "medium" ↔
      3 / 10 ≤ (analyze_threat_content content).confidence_score ∧
      (analyze_threat_content content).confidence_score < 6 / 10)
  ∧ ((analyze_threat_content content).threat_level = "low" ↔
      (analyze_threat_content content).confidence_score < 3 / 10)
  ∧ ((analyze_threat_content content).threat_detected = true ↔
      2 / 10 < (analyze_threat_content content).confidence_score)
  ∧ threatLevelOf (3 / 10) = "medium"
  ∧ threatLevelOf (6 / 10) = "high"
  ∧ threatLevelOf (8 / 10) = "critical"
  ∧ threatLevelOf (2 / 10) = "low"
  ∧ threatDetectedOf (2 / 10) = false
  ∧ threatDetectedOf (21 / 100) = true := by
  rw [analyze_level, analyze_detected, analyze_confidence]
  refine ⟨?_, ?_, ?_, ?_, ?_, by decide, by decide, by decide, by decide, by decide, by decide⟩
  · rw [threatLevel_critical_iff, clamp_le_iff _ _ (by norm_num)]
  · rw [threatLevel_high_iff, clamp_le_iff _ _ (by norm_num), clamp_lt_iff _ _ (by norm_num)]
  · rw [threatLevel_medium_iff, clamp_le_iff _ _ (by norm_num), clamp_lt_iff _ _ (by norm_num)]
  · rw [threatLevel_low_iff, clamp_lt_iff _ _ (by norm_num)]
  · rw [threatDetectedOf_iff, lt_clamp_iff _ _ (by norm_num)]

/-- C3: the recommended actions are exactly the three base recommendations,
with the two emergency recommendations appended at high/critical level, when
the confidence exceeds 0.5, and the empty list otherwise; the list is a fixed
literal, never deduplicated or reordered. -/
theorem recommended_actions_spec (content : String) :
    (analyze_threat_content content).recommended_actions =
      if 5 / 10 < (analyze_threat_content content).confidence_score then
        ["Document this content as evidence",
         "Report to platform administrators",
         "Consider blocking the sender"] ++
        (if (analyze_threat_content content).threat_level = "high" ∨
            (analyze_threat_content content).threat_level = "critical" then
          ["Contact emergency services if feeling unsafe",
           "Inform trusted contacts about the situation"]
         else [])
      else [] := by
  rw [analyze_rec_eq, analyze_level, analyze_confidence, recommendationsFor]
  by_cases h : (5 : ℚ) / 10 < maxRawScore content
  · rw [if_pos h, if_pos ((lt_clamp_iff _ _ (by norm_num)).mpr h)]
  · rw [if_neg h, if_neg (fun hc => h ((lt_clamp_iff _ _ (by norm_num)).mp hc))]

/-- C5: the confidence score is the winning category's raw score clamped by
min(·, 1): it is never negative, never exceeds 1, and a content whose winning
raw score exceeds 1 (four weighted matches, raw score 1.2) reports exactly 1. -/
theorem confidence_clamped (content : String) :
    (analyze_threat_content content).confidence_score = min (maxRawScore content) 1
  ∧ 0 ≤ (analyze_threat_content content).confidence_score
  ∧ (analyze_threat_content content).confidence_score ≤ 1
  ∧ 1 < maxRawScore "stupid idiot loser ugly"
  ∧ (analyze_threat_content "stupid idiot loser ugly").confidence_score = 1 := by
  refine ⟨analyze_confidence content, ?_, ?_, by decide, by decide⟩
  · rw [analyze_confidence]
    exact le_min (maxRawScore_nonneg content) (by norm_num)
  · rw [analyze_confidence]
    exact min_le_right _ _

/-- C4: an escalation notification is produced iff the threat is detected and
the level is high or critical; its priority is "urgent" at critical level and
"high" at high level, and no event is produced at low or medium level. -/
theorem escalation_event_spec (r : ThreatAnalysisResult) (uid tid : String) :
    ((escalationEvent r uid tid).isSome = true ↔
      (r.threat_detected = true ∧ (r.threat_level = "high" ∨ r.threat_level = "critical")))
  ∧ (r.threat_detected = true → r.threat_level = "critical" →
      (escalationEvent r uid tid).map EscalationEvent.priority = some "urgent")
  ∧ (r.threat_detected = true → r.threat_level = "high" →
      (escalationEvent r uid tid).map EscalationEvent.priority = some "high")
  ∧ ((r.threat_level = "low" ∨ r.threat_level = "medium") →
      escalationEvent r uid tid = none) := by
  refine ⟨escalation_isSome_iff r uid tid, ?_, ?_, ?_⟩
  · intro hd hc
    rw [escalationEvent, if_pos ⟨hd, Or.inr hc⟩]
    simp [hc]
  · intro hd hh
    rw [escalationEvent, if_pos ⟨hd, Or.inl hh⟩]
    simp [hh]
  · intro hl
    rw [escalationEvent, if_neg]
    rintro ⟨_, hor⟩
    rcases hl with h | h <;> rcases hor with h2 | h2 <;>
      exact absurd (h.symm.trans h2) (by decide)

/-- C4 witness: on the content "stupid idiot" (confidence 0.6, level high,
detected) the escalation event is produced with priority "high". -/
theorem escalation_event_spec_witness :
    (escalationEvent (analyze_threat_content "stupid idiot") "u1" "t1").map
      EscalationEvent.priority = some "high" :=
  (escalation_event_spec (analyze_threat_content "stupid idiot") "u1" "t1").2.2.1
    (by decide) (by decide)

/-- C6: a category's raw score is monotone in the per-pattern numbers of
non-overlapping matches: if every pattern of the category matches at least as
often in one content as in another, the raw score does not decrease. -/
theorem score_monotone (pats : List (List String)) (c1 c2 : List Char)
    (h : ∀ pat ∈ pats, countMatches pat c1 ≤ countMatches pat c2) :
    threatScoreOf pats c1 ≤ threatScoreOf pats c2 := by
  rw [threatScoreOf_eq_sum, threatScoreOf_eq_sum]
  induction pats with
  | nil => simp
  | cons p rest ih =>
    simp only [List.map_cons, List.sum_cons]
    have h1 : countMatches p c1 ≤ countMatches p c2 := h p (List.mem_cons_self p rest)
    have h2 := ih fun pat hp => h pat (List.mem_cons_of_mem p hp)
    have h3 : ((countMatches p c1 : ℚ)) * (3 / 10) ≤ (countMatches p c2 : ℚ) * (3 / 10) :=
      mul_le_mul_of_nonneg_right (by exact_mod_cast h1) (by norm_num)
    exact add_le_add h3 h2

/-- C6 witness: duplicating the matched word "stupid" does not decrease the
cyberbullying raw score. -/
theorem score_monotone_witness :
    threatScoreOf cyberbullying_patterns "stupid".toList ≤
      threatScoreOf cyberbullying_patterns "stupid stupid".toList :=
  score_monotone cyberbullying_patterns "stupid".toList "stupid stupid".toList (by decide)

/-- C7: the analysis is a deterministic, side-effect-free function of the
content alone: equal contents yield identical results in every field. -/
theorem analysis_deterministic (c1 c2 : String) (h : c1 = c2) :
    analyze_threat_content c1 = analyze_threat_content c2 := by
  rw [h]

/-- C7 witness: two calls on the same concrete content agree. -/
theorem analysis_deterministic_witness :
    analyze_threat_content "hello" = analyze_threat_content "hello" :=
  analysis_deterministic "hello" "hello" rfl

/-- C9: on the content "you are so stupid and ugly, kill yourself!" the
analysis reports cyberbullying with confidence at least 0.6 (here 0.9), a high
or critical level (here critical), recommends contacting emergency services,
and an escalation event with priority "high" or "urgent" is produced. -/
theorem escalation_scenario_bullying :
    (analyze_threat_content "you are so stupid and ugly, kill yourself!").threat_type =
      "cyberbullying"
  ∧ 6 / 10 ≤ (analyze_threat_content "you are so stupid and ugly, kill yourself!").confidence_score
  ∧ ((analyze_threat_content "you are so stupid and ugly, kill yourself!").threat_level = "high" ∨
     (analyze_threat_content "you are so stupid and ugly, kill yourself!").threat_level =
       "critical")
  ∧ "Contact emergency services if feeling unsafe" ∈
      (analyze_threat_content "you are so stupid and ugly, kill yourself!").recommended_actions
  ∧ ((escalationEvent (analyze_threat_content "you are so stupid and ugly, kill yourself!")
        "u1" "t1").map EscalationEvent.priority = some "high" ∨
     (escalationEvent (analyze_threat_content "you are so stupid and ugly, kill yourself!")
        "u1" "t1").map EscalationEvent.priority = some "urgent") := by
  refine ⟨by decide, by decide, Or.inr (by decide), by decide, Or.inr (by decide)⟩

/-- C10: a high or critical threat level forces threat_detected = true (its
confidence is at least 0.6 > 0.2), so no result pairs an escalation-worthy
severity with a negative detection flag, and the threat_detected conjunct of
the escalation condition is redundant: the event is produced iff the level is
high or critical. -/
theorem high_critical_implies_detected (content : String) (uid tid : String) :
    (((analyze_threat_content content).threat_level = "high" ∨
      (analyze_threat_content content).threat_level = "critical") →
      (analyze_threat_content content).threat_detected = true)
  ∧ ((escalationEvent (analyze_threat_content content) uid tid).isSome = true ↔
      ((analyze_threat_content content).threat_level = "high" ∨
       (analyze_threat_content content).threat_level = "critical")) := by
  have hdet : (((analyze_threat_content content).threat_level = "high" ∨
      (analyze_threat_content content).threat_level = "critical") →
      (analyze_threat_content content).threat_detected = true) := by
    rw [analyze_level, analyze_detected]
    intro hor
    have h6 : 6 / 10 ≤ maxRawScore content := by
      rcases hor with h | h
      · exact ((threatLevel_high_iff _).mp h).1
      · have := (threatLevel_critical_iff _).mp h
        linarith
    rw [threatDetectedOf_iff]
    linarith
  refine ⟨hdet, ?_⟩
  rw [escalation_isSome_iff]
  exact ⟨fun h => h.2, fun hor => ⟨hdet hor, hor⟩⟩

/-- C10 witness: on "stupid idiot" the level is high and the detection flag is
set; the escalation event is produced. -/
theorem high_critical_implies_detected_witness :
    (analyze_threat_content "stupid idiot").threat_detected = true ∧
    (escalationEvent (analyze_threat_content "stupid idiot") "u2" "t2").isSome = true :=
  ⟨(high_critical_implies_detected "stupid idiot" "u2" "t2").1 (Or.inl (by decide)),
   (high_critical_implies_detected "stupid idiot" "u2" "t2").2.mpr (Or.inl (by decide))⟩
